import Mathlib

/-!
Verification of the LangExtract API wrapper (`app.py`, `models.py`).

The service is a thin HTTP layer over an external extraction library.
We shallowly embed the wrapper's pure logic:

* the pydantic request models (`models.py`), including field defaults, as a
  raw request body (`RequestBody`, where an outer `none` marks a field that
  is omitted from the JSON body) parsed into an `ExtractRequest`;
* the DTO-to-library example translation `_to_examples`;
* the keyword-argument map assembled by `_extract` (`ExtractKwargs`, where a
  field of type `Option _` holding `none` models the key being absent from
  the Python `kwargs` dict, since the code only inserts those keys when the
  request value `is not None`; the `examples` key is inserted
  unconditionally, so it is modelled as an always-present `Option` value);
* the `/extract` and `/visualize` endpoint handlers, with the external
  extraction and visualization capabilities as function parameters that may
  return a `PyErr` (distinguishing `ValueError` from other exceptions,
  because the handlers catch them differently), and the filesystem as an
  explicit `FS` value threaded through `/visualize`;
* the `/artifacts/html` handler, applied to the already-canonicalized query
  path (`pathlib.Path(path).resolve()` is the identity on a canonical
  absolute path, which all paths considered below are).
-/

/-- `models.py` `ExtractionDTO`: one extracted span.  The `Dict[str, Any]`
attribute mapping is modelled as an association list of string pairs; only
verbatim copying of it is ever at stake. -/
structure ExtractionDTO where
  extraction_class : String
  extraction_text : String
  attributes : List (String × String)
deriving DecidableEq, Repr

/-- `models.py` `ExampleDataDTO`: one few-shot example. -/
structure ExampleDataDTO where
  text : String
  extractions : List ExtractionDTO
deriving DecidableEq, Repr

/-- `models.py` `ExtractRequest` after pydantic validation: `examples`
defaults to `[]`, the tuning knobs and `model_id` default to `None`, and
`debug` defaults to `True`. -/
structure ExtractRequest where
  text_or_documents : Sum String (List String)
  prompt_description : String
  examples : List ExampleDataDTO
  extraction_passes : Option Int
  max_workers : Option Int
  max_char_buffer : Option Int
  model_id : Option String
  debug : Option Bool
deriving DecidableEq, Repr

/-- A raw JSON request body for `/extract` and `/visualize`.  For each
optional field the outer `none` means the key is omitted from the body and
`some v` means the key is present with value `v` (where `v` itself may be
the JSON `null`, i.e. the inner `none`). -/
structure RequestBody where
  text_or_documents : Sum String (List String)
  prompt_description : String
  examples : Option (List ExampleDataDTO)
  extraction_passes : Option (Option Int)
  max_workers : Option (Option Int)
  max_char_buffer : Option (Option Int)
  model_id : Option (Option String)
  debug : Option (Option Bool)
deriving DecidableEq, Repr

/-- Pydantic parsing of a request body into `ExtractRequest`, applying the
field defaults declared in `models.py`: an omitted key takes the field's
default (`[]` for `examples`, `None` for the tuning knobs and `model_id`,
and `True` for `debug`). -/
def parseRequest (b : RequestBody) : ExtractRequest :=
  { text_or_documents := b.text_or_documents
    prompt_description := b.prompt_description
    examples := b.examples.getD []
    extraction_passes := b.extraction_passes.getD none
    max_workers := b.max_workers.getD none
    max_char_buffer := b.max_char_buffer.getD none
    model_id := b.model_id.getD none
    debug := b.debug.getD (some true) }

/-- `langextract.data.Extraction` (the fields the wrapper copies). -/
structure Extraction where
  extraction_class : String
  extraction_text : String
  attributes : List (String × String)
deriving DecidableEq, Repr

/-- `langextract.data.ExampleData` (the fields the wrapper copies). -/
structure ExampleData where
  text : String
  extractions : List Extraction
deriving DecidableEq, Repr

/-- The body of the list comprehension in `_to_examples`: one DTO extraction
to one library `Extraction`. -/
def convExtraction (e : ExtractionDTO) : Extraction :=
  { extraction_class := e.extraction_class
    extraction_text := e.extraction_text
    attributes := e.attributes }

/-- The outer comprehension body of `_to_examples`: one `ExampleDataDTO` to
one library `ExampleData`. -/
def convExampleData (o : ExampleDataDTO) : ExampleData :=
  { text := o.text
    extractions := o.extractions.map convExtraction }

/-- `app.py` `_to_examples`: `if not objs: return None` (both a `None`
argument and an empty list are falsy), otherwise the element-wise
conversion of the list. -/
def to_examples (objs : Option (List ExampleDataDTO)) : Option (List ExampleData) :=
  match objs with
  | none => none
  | some l => if l.isEmpty then none else some (l.map convExampleData)

/-- Process-wide configuration read from the environment at startup:
`ALLOW_EMPTY_EXAMPLES`, `MODEL_ID` (as `MODEL_DEFAULT`). -/
structure Env where
  allow_empty_examples : Bool
  model_default : String
deriving DecidableEq, Repr

/-- A Python exception crossing the wrapper's `try` blocks.  The handlers
distinguish `ValueError` from every other exception class, so the model
does too. -/
inductive PyErr where
  | valueError (msg : String)
  | exc (msg : String)
deriving DecidableEq, Repr

/-- The keyword arguments assembled by `_extract` for `lx.extract(**kwargs)`.
For `api_key`, `extraction_passes`, `max_workers`, `max_char_buffer` and
`debug`, a value of `none` means the key is NOT in the dict (the code only
inserts each of those keys when the corresponding value `is not None`).
The `examples` key is always in the dict; its value may be Python `None`
(modelled by the `Option` being `none`), which the library treats as
not-specified. -/
structure ExtractKwargs where
  text_or_documents : Sum String (List String)
  prompt_description : String
  examples : Option (List ExampleData)
  model_id : String
  api_key : Option String
  extraction_passes : Option Int
  max_workers : Option Int
  max_char_buffer : Option Int
  debug : Option Bool
deriving DecidableEq, Repr

/-- Python `req.model_id or MODEL_DEFAULT`: `or` takes the default both for
`None` and for the (falsy) empty string. -/
def pyStrOr (s : Option String) (d : String) : String :=
  match s with
  | none => d
  | some v => if v = "" then d else v

/-- The exact `ValueError` message raised by `_extract` when `examples` is
empty and the override is disabled. -/
def exMsg : String :=
  "Examples are required for reliable extraction results. Set ALLOW_EMPTY_EXAMPLES=true to override for testing."

/-- Lines 69–84 of `app.py`: the kwargs dict built by `_extract`. -/
def buildKwargs (env : Env) (req : ExtractRequest) (api_key : Option String) : ExtractKwargs :=
  { text_or_documents := req.text_or_documents
    prompt_description := req.prompt_description
    examples := to_examples (some req.examples)
    model_id := pyStrOr req.model_id env.model_default
    api_key := api_key
    extraction_passes := req.extraction_passes
    max_workers := req.max_workers
    max_char_buffer := req.max_char_buffer
    debug := req.debug }

/-- `app.py` `_extract`: raise `ValueError` when `examples` is empty and
`ALLOW_EMPTY_EXAMPLES` is not enabled, otherwise call the external
extraction capability `cap` on the assembled kwargs.  (The JSON encoding of
the result for `return_raw=False` is value-preserving and not modelled.) -/
def extractCore {α : Type} (env : Env) (cap : ExtractKwargs → Except PyErr α)
    (req : ExtractRequest) (api_key : Option String) : Except PyErr α :=
  if req.examples.isEmpty && !env.allow_empty_examples then
    Except.error (PyErr.valueError exMsg)
  else
    cap (buildKwargs env req api_key)

/-- An HTTP outcome: a 200 body, or an `HTTPException`-style status plus
detail string. -/
inductive HttpResult (α : Type) where
  | ok (body : α)
  | err (status : Nat) (detail : String)
deriving DecidableEq, Repr

/-- `app.py` `POST /extract`: `except ValueError` maps to 400 with the
exception's message, any other exception to 500 with the message prefixed
by `Extraction failed: `. -/
def extractEndpoint {α : Type} (env : Env) (cap : ExtractKwargs → Except PyErr α)
    (req : ExtractRequest) (api_key : Option String) : HttpResult α :=
  match extractCore env cap req api_key with
  | Except.ok d => HttpResult.ok d
  | Except.error (PyErr.valueError m) => HttpResult.err 400 m
  | Except.error (PyErr.exc m) => HttpResult.err 500 ("Extraction failed: " ++ m)

/-- The three paths returned by `POST /visualize`. -/
structure RunArtifact where
  run_dir : String
  jsonl : String
  html : String
deriving DecidableEq, Repr

/-- A flat model of the filesystem state touched by the wrapper: the set of
created directories and of written files (path paired with content).
Writes append; nothing in the wrapper ever deletes. -/
structure FS where
  dirs : List String
  files : List (String × String)
deriving DecidableEq, Repr

/-- `base.mkdir(parents=True, exist_ok=True)`. -/
def mkdirFS (fs : FS) (dir : String) : FS :=
  { fs with dirs := fs.dirs ++ [dir] }

/-- Writing a file (`save_annotated_documents`, or the `open(...,"w")` for
the HTML report). -/
def writeFS (fs : FS) (p content : String) : FS :=
  { fs with files := fs.files ++ [(p, content)] }

/-- `p.exists()`: the path is a written file or a created directory. -/
def fileExists (fs : FS) (p : String) : Bool :=
  (fs.files.map Prod.fst).contains p || fs.dirs.contains p

/-- The run directory created by `/visualize`:
`ARTIFACTS_DIR / f"run_{timestamp}_{run_id}"`, where `ts` is the UTC
`%Y%m%dT%H%M%SZ` timestamp string and `runId` the 8-character random
token `str(uuid.uuid4())[:8]`. -/
def runDirPath (artifactsDir ts runId : String) : String :=
  artifactsDir ++ "/run_" ++ ts ++ "_" ++ runId

/-- `app.py` `POST /visualize`, lines 118–162.  `cap` is the extraction
capability (via `_extract` with `return_raw=True`); `saveContent` is the
serialization performed by `lx_io.save_annotated_documents` (which writes
`extraction_results.jsonl` in the run directory; the wrapping of a single
result into a one-element list is folded into it); `vis` is
`lx.visualize` applied to the JSONL path.  Any exception escaping a step
reaches the endpoint's handlers: `ValueError` becomes 400 with the message,
anything else 500 with the `Visualization failed: ` prefix.  The filesystem
state is threaded explicitly and returned alongside the HTTP outcome. -/
def visualizeEndpoint {α : Type} (env : Env) (artifactsDir : String)
    (cap : ExtractKwargs → Except PyErr α)
    (saveContent : α → String)
    (vis : String → Except PyErr String)
    (ts runId : String)
    (req : ExtractRequest) (api_key : Option String) (fs : FS) :
    FS × HttpResult RunArtifact :=
  match extractCore env cap req api_key with
  | Except.error (PyErr.valueError m) => (fs, HttpResult.err 400 m)
  | Except.error (PyErr.exc m) => (fs, HttpResult.err 500 ("Visualization failed: " ++ m))
  | Except.ok raw =>
    let base := runDirPath artifactsDir ts runId
    let fs1 := mkdirFS fs base
    let jsonlPath := base ++ "/extraction_results.jsonl"
    let fs2 := writeFS fs1 jsonlPath (saveContent raw)
    match vis jsonlPath with
    | Except.error (PyErr.valueError m) => (fs2, HttpResult.err 400 m)
    | Except.error (PyErr.exc m) => (fs2, HttpResult.err 500 ("Visualization failed: " ++ m))
    | Except.ok htmlText =>
      let htmlPath := base ++ "/report.html"
      let fs3 := writeFS fs2 htmlPath htmlText
      (fs3, HttpResult.ok { run_dir := base, jsonl := jsonlPath, html := htmlPath })

/-- Python `s.startswith(pre)`, on the underlying character lists (the
strings at stake are plain ASCII paths, where characters and code units
coincide). -/
def pyStartsWith (s pre : String) : Bool :=
  pre.data.isPrefixOf s.data

/-- Whether `sub` occurs as a contiguous substring of `hay`. -/
def containsSub (hay needle : List Char) : Bool :=
  match hay with
  | [] => needle.isEmpty
  | _ :: rest => needle.isPrefixOf hay || containsSub rest needle

/-- Whether the string `sub` occurs inside `s` (used to state that an error
message mentions a given word). -/
def mentions (s sub : String) : Bool :=
  containsSub s.data sub.data

/-- The final component of a path (`pathlib` `name`, for the paths at stake
here: no trailing slash): the characters after the last `/`. -/
def pathName (p : String) : List Char :=
  ((p.data.reverse).takeWhile (fun c => c ≠ '/')).reverse

/-- `pathlib` `PurePath.suffix` on a path's final component `name`: with
`i = name.rfind(".")`, the result is `name[i:]` when `0 < i < len(name)-1`
and `""` otherwise (no dot, a leading dot only, or a trailing dot).
`ext` below is the run of characters after the last dot. -/
def pySuffixChars (name : List Char) : List Char :=
  let ext := (name.reverse).takeWhile (fun c => c ≠ '.')
  if ext.length = name.length then []
  else if ext.length = 0 then []
  else if name.length ≤ ext.length + 1 then []
  else '.' :: ext.reverse

/-- `pathlib` `suffix` of a whole path, as a string. -/
def pySuffix (p : String) : String :=
  String.mk (pySuffixChars (pathName p))

/-- Python `str.lower` (ASCII case folding suffices for the paths and the
`.html` extension at stake). -/
def strToLower (s : String) : String :=
  String.mk (s.data.map Char.toLower)

/-- The outcome of `GET /artifacts/html`: a `FileResponse` (path and media
type) or an error status with detail. -/
inductive FileResult where
  | file (path : String) (mediaType : String)
  | err (status : Nat) (detail : String)
deriving DecidableEq, Repr

/-- `app.py` `GET /artifacts/html`, lines 165–176, applied to the
already-resolved query path `p` and the resolved artifacts root.  The
containment test is exactly the code's
`str(p).startswith(str(ARTIFACTS_DIR.resolve()))`; then
`if not p.exists() or p.suffix.lower() != ".html"` yields 404; otherwise
the file is served with media type `text/html`. -/
def get_html (artifactsDir : String) (fs : FS) (p : String) : FileResult :=
  if pyStartsWith p artifactsDir = false then
    FileResult.err 400 "Path is outside artifacts directory"
  else if fileExists fs p = false ∨ strToLower (pySuffix p) ≠ ".html" then
    FileResult.err 404 "Not found"
  else
    FileResult.file p "text/html"

/-- Appending the same string on the left is cancellative. -/
theorem str_append_left_cancel (s t u : String) (h : s ++ t = s ++ u) : t = u := by
  cases s with
  | mk sd =>
    cases t with
    | mk td =>
      cases u with
      | mk ud =>
        have hd : sd ++ td = sd ++ ud := by
          simpa using congrArg String.data h
        exact congrArg String.mk (List.append_cancel_left hd)

/-- C1: the containment test of `GET /artifacts/html` is the plain string
check `str(p).startswith(str(ARTIFACTS_DIR))`, not a path-component prefix
check: for the artifacts root `/srv/artifacts`, the already-canonical path
`/srv/artifacts-evil/x.html` — an existing `.html` file in a sibling
directory whose name merely begins with the root's string — passes the
check and is served with status 200 and media type `text/html`, instead of
being rejected with the 400 "outside artifacts directory" error the claim
requires. -/
theorem c1_startswith_accepts_sibling :
    pyStartsWith "/srv/artifacts-evil/x.html" "/srv/artifacts" = true ∧
    get_html "/srv/artifacts"
        { dirs := ["/srv/artifacts-evil"],
          files := [("/srv/artifacts-evil/x.html", "<h1>leaked</h1>")] }
        "/srv/artifacts-evil/x.html" =
      FileResult.file "/srv/artifacts-evil/x.html" "text/html" := by
  constructor
  · decide
  · decide

/-- C2 (counterexample): for a request body that omits the `debug` field
(together with every other tuning field), the kwargs dict passed to the
extraction capability DOES contain `debug` — pydantic fills the omitted
field with the DTO default `True` (`debug: Optional[bool] = True` in
`models.py`), and `_extract` forwards any non-`None` value.  This refutes
the claim that an omitted `debug` is not forwarded. -/
theorem c2_omitted_debug_is_forwarded :
    (buildKwargs { allow_empty_examples := false, model_default := "gemini-2.5-flash" }
        (parseRequest
          { text_or_documents := Sum.inl "John works at Acme.",
            prompt_description := "extract person and org",
            examples := some [{ text := "Jane works at Globex.",
                                extractions := [{ extraction_class := "person",
                                                  extraction_text := "Jane",
                                                  attributes := [] }] }],
            extraction_passes := none,
            max_workers := none,
            max_char_buffer := none,
            model_id := none,
            debug := none })
        none).debug = some true := by
  decide

/-- C2 (amended): per optional field, for every request body: an omitted
`extraction_passes`, `max_workers` or `max_char_buffer` is absent from the
kwargs passed to the extraction capability (independently of the other
fields), but an omitted `debug` defaults to `True` and is forwarded as
`debug = True`; only an explicit `debug: null` in the body keeps the
`debug` key out of the kwargs. -/
theorem c2_amended_omitted_knobs (env : Env) (b : RequestBody) (k : Option String) :
    (b.extraction_passes = none →
      (buildKwargs env (parseRequest b) k).extraction_passes = none) ∧
    (b.max_workers = none →
      (buildKwargs env (parseRequest b) k).max_workers = none) ∧
    (b.max_char_buffer = none →
      (buildKwargs env (parseRequest b) k).max_char_buffer = none) ∧
    (b.debug = none →
      (buildKwargs env (parseRequest b) k).debug = some true) ∧
    (b.debug = some none →
      (buildKwargs env (parseRequest b) k).debug = none) := by
  refine ⟨?_, ?_, ?_, ?_, ?_⟩ <;>
    · intro h
      simp [buildKwargs, parseRequest, h]

/-- C2 (witness for the amended theorem): one body omitting
`extraction_passes` and `debug` while supplying the other knobs, and one
body with an explicit `debug: null`. -/
theorem c2_amended_omitted_knobs_witness :
    (buildKwargs { allow_empty_examples := false, model_default := "m" }
        (parseRequest
          { text_or_documents := Sum.inl "t", prompt_description := "p",
            examples := none, extraction_passes := none,
            max_workers := some (some 4), max_char_buffer := some (some 1000),
            model_id := none, debug := none })
        none).extraction_passes = none ∧
    (buildKwargs { allow_empty_examples := false, model_default := "m" }
        (parseRequest
          { text_or_documents := Sum.inl "t", prompt_description := "p",
            examples := none, extraction_passes := none,
            max_workers := some (some 4), max_char_buffer := some (some 1000),
            model_id := none, debug := none })
        none).debug = some true ∧
    (buildKwargs { allow_empty_examples := false, model_default := "m" }
        (parseRequest
          { text_or_documents := Sum.inl "t", prompt_description := "p",
            examples := none, extraction_passes := none, max_workers := none,
            max_char_buffer := none, model_id := none, debug := some none })
        none).debug = none := by
  have h1 := c2_amended_omitted_knobs { allow_empty_examples := false, model_default := "m" }
    { text_or_documents := Sum.inl "t", prompt_description := "p",
      examples := none, extraction_passes := none,
      max_workers := some (some 4), max_char_buffer := some (some 1000),
      model_id := none, debug := none }
    none
  have h2 := c2_amended_omitted_knobs { allow_empty_examples := false, model_default := "m" }
    { text_or_documents := Sum.inl "t", prompt_description := "p",
      examples := none, extraction_passes := none, max_workers := none,
      max_char_buffer := none, model_id := none, debug := some none }
    none
  exact ⟨h1.1 rfl, h1.2.2.2.1 rfl, h2.2.2.2.2 rfl⟩

/-- C3 (counterexample): there is no fallback HTML page in the code.  For a
concrete `/visualize` request whose extraction succeeds but whose
visualization capability raises, the endpoint returns HTTP 500
("Visualization failed: ...") instead of returning a `RunArtifact`, and the
filesystem afterwards holds only the run directory and the JSONL file — no
`report.html` and no pretty-printed fallback page. -/
theorem c3_no_fallback_on_vis_error :
    visualizeEndpoint { allow_empty_examples := false, model_default := "m" }
        "/srv/artifacts"
        (fun _ => Except.ok "rawresult")
        (fun r => r)
        (fun _ => Except.error (PyErr.exc "visualizer down"))
        "20260101T000000Z" "abcd1234"
        { text_or_documents := Sum.inl "t", prompt_description := "p",
          examples := [{ text := "e", extractions := [] }],
          extraction_passes := none, max_workers := none,
          max_char_buffer := none, model_id := none, debug := some true }
        (some "k")
        { dirs := [], files := [] } =
      ({ dirs := ["/srv/artifacts/run_20260101T000000Z_abcd1234"],
         files := [("/srv/artifacts/run_20260101T000000Z_abcd1234/extraction_results.jsonl",
                    "rawresult")] },
       HttpResult.err 500 "Visualization failed: visualizer down") := by
  decide

/-- C3 (amended): when extraction succeeds and the visualization capability
raises, `/visualize` does NOT fall back to a minimal HTML page: the request
fails — with HTTP 500 `Visualization failed: <msg>` for a non-`ValueError`,
and with HTTP 400 carrying the raw message for a `ValueError` — and in
either case the filesystem afterwards holds exactly the prior state plus
the run directory and the JSONL file (no HTML file is written). -/
theorem c3_amended_vis_error_fails {α : Type} (env : Env) (aDir ts runId : String)
    (cap : ExtractKwargs → Except PyErr α) (saveC : α → String)
    (vis : String → Except PyErr String)
    (req : ExtractRequest) (k : Option String) (fs : FS) (raw : α) (msg : String)
    (hex : req.examples.isEmpty = false)
    (hcap : cap (buildKwargs env req k) = Except.ok raw) :
    (vis (runDirPath aDir ts runId ++ "/extraction_results.jsonl") =
        Except.error (PyErr.exc msg) →
      visualizeEndpoint env aDir cap saveC vis ts runId req k fs =
        (writeFS (mkdirFS fs (runDirPath aDir ts runId))
           (runDirPath aDir ts runId ++ "/extraction_results.jsonl") (saveC raw),
         HttpResult.err 500 ("Visualization failed: " ++ msg))) ∧
    (vis (runDirPath aDir ts runId ++ "/extraction_results.jsonl") =
        Except.error (PyErr.valueError msg) →
      visualizeEndpoint env aDir cap saveC vis ts runId req k fs =
        (writeFS (mkdirFS fs (runDirPath aDir ts runId))
           (runDirPath aDir ts runId ++ "/extraction_results.jsonl") (saveC raw),
         HttpResult.err 400 msg)) := by
  constructor
  · intro hvis
    simp [visualizeEndpoint, extractCore, hex, hcap, hvis]
  · intro hvis
    simp [visualizeEndpoint, extractCore, hex, hcap, hvis]

/-- C3 (witness for the amended theorem): one visualization capability
raising a generic exception (500), one raising a `ValueError` (400). -/
theorem c3_amended_vis_error_fails_witness :
    visualizeEndpoint { allow_empty_examples := false, model_default := "m" }
        "/a" (fun _ => Except.ok "r") (fun r => r)
        (fun _ => Except.error (PyErr.exc "down")) "ts" "id"
        { text_or_documents := Sum.inl "t", prompt_description := "p",
          examples := [{ text := "e", extractions := [] }],
          extraction_passes := none, max_workers := none,
          max_char_buffer := none, model_id := none, debug := some true }
        none { dirs := [], files := [] } =
      (writeFS (mkdirFS { dirs := [], files := [] } (runDirPath "/a" "ts" "id"))
         (runDirPath "/a" "ts" "id" ++ "/extraction_results.jsonl") "r",
       HttpResult.err 500 ("Visualization failed: " ++ "down")) ∧
    visualizeEndpoint { allow_empty_examples := false, model_default := "m" }
        "/a" (fun _ => Except.ok "r") (fun r => r)
        (fun _ => Except.error (PyErr.valueError "bad jsonl")) "ts" "id"
        { text_or_documents := Sum.inl "t", prompt_description := "p",
          examples := [{ text := "e", extractions := [] }],
          extraction_passes := none, max_workers := none,
          max_char_buffer := none, model_id := none, debug := some true }
        none { dirs := [], files := [] } =
      (writeFS (mkdirFS { dirs := [], files := [] } (runDirPath "/a" "ts" "id"))
         (runDirPath "/a" "ts" "id" ++ "/extraction_results.jsonl") "r",
       HttpResult.err 400 "bad jsonl") := by
  have h1 := c3_amended_vis_error_fails { allow_empty_examples := false, model_default := "m" }
    "/a" "ts" "id" (fun _ => Except.ok "r") (fun r => r)
    (fun _ => Except.error (PyErr.exc "down"))
    { text_or_documents := Sum.inl "t", prompt_description := "p",
      examples := [{ text := "e", extractions := [] }],
      extraction_passes := none, max_workers := none,
      max_char_buffer := none, model_id := none, debug := some true }
    none { dirs := [], files := [] } "r" "down" rfl rfl
  have h2 := c3_amended_vis_error_fails { allow_empty_examples := false, model_default := "m" }
    "/a" "ts" "id" (fun _ => Except.ok "r") (fun r => r)
    (fun _ => Except.error (PyErr.valueError "bad jsonl"))
    { text_or_documents := Sum.inl "t", prompt_description := "p",
      examples := [{ text := "e", extractions := [] }],
      extraction_passes := none, max_workers := none,
      max_char_buffer := none, model_id := none, debug := some true }
    none { dirs := [], files := [] } "r" "bad jsonl" rfl rfl
  exact ⟨h1.1 rfl, h2.2 rfl⟩

/-- C4 (counterexample): a `ValueError` raised by the extraction capability
itself is caught by the endpoint's `except ValueError` handler and surfaced
as HTTP 400 with the raw message — not as the HTTP 500 the claim requires
for every capability error. -/
theorem c4_capability_valueerror_gives_400 :
    extractEndpoint { allow_empty_examples := false, model_default := "m" }
        (fun _ => (Except.error (PyErr.valueError "boom") : Except PyErr String))
        { text_or_documents := Sum.inl "t", prompt_description := "p",
          examples := [{ text := "e", extractions := [] }],
          extraction_passes := none, max_workers := none,
          max_char_buffer := none, model_id := none, debug := some true }
        (some "k") =
      HttpResult.err 400 "boom" := by
  decide

/-- C4 (amended): errors at `POST /extract` are mapped by exception class,
not by origin: any `ValueError` — the empty-examples precondition failure
as well as one raised by the extraction capability — becomes HTTP 400 with
the raw message, and every other exception from the capability becomes
HTTP 500 with the message prefixed by `Extraction failed: `. -/
theorem c4_amended_error_mapping {α : Type} (env : Env)
    (cap : ExtractKwargs → Except PyErr α)
    (req : ExtractRequest) (k : Option String) (msg : String) :
    (req.examples.isEmpty = false →
      cap (buildKwargs env req k) = Except.error (PyErr.valueError msg) →
      extractEndpoint env cap req k = HttpResult.err 400 msg) ∧
    (req.examples.isEmpty = false →
      cap (buildKwargs env req k) = Except.error (PyErr.exc msg) →
      extractEndpoint env cap req k = HttpResult.err 500 ("Extraction failed: " ++ msg)) ∧
    (∀ d : α, req.examples.isEmpty = false →
      cap (buildKwargs env req k) = Except.ok d →
      extractEndpoint env cap req k = HttpResult.ok d) ∧
    (req.examples = [] → env.allow_empty_examples = false →
      extractEndpoint env cap req k = HttpResult.err 400 exMsg) := by
  refine ⟨?_, ?_, ?_, ?_⟩
  · intro hex h
    simp [extractEndpoint, extractCore, hex, h]
  · intro hex h
    simp [extractEndpoint, extractCore, hex, h]
  · intro d hex h
    simp [extractEndpoint, extractCore, hex, h]
  · intro hreq hdis
    simp [extractEndpoint, extractCore, hreq, hdis]

/-- C4 (witness for the amended theorem): a capability raising a generic
exception (500 with prefix), and a request with empty examples under the
disabled override (precondition `ValueError`, 400 with `exMsg`). -/
theorem c4_amended_error_mapping_witness :
    extractEndpoint { allow_empty_examples := false, model_default := "m" }
        (fun _ => (Except.error (PyErr.exc "boom") : Except PyErr String))
        { text_or_documents := Sum.inl "t", prompt_description := "p",
          examples := [{ text := "e", extractions := [] }],
          extraction_passes := none, max_workers := none,
          max_char_buffer := none, model_id := none, debug := some true }
        (some "k") =
      HttpResult.err 500 ("Extraction failed: " ++ "boom") ∧
    extractEndpoint { allow_empty_examples := false, model_default := "m" }
        (fun _ => (Except.ok "d" : Except PyErr String))
        { text_or_documents := Sum.inl "t", prompt_description := "p",
          examples := [], extraction_passes := none, max_workers := none,
          max_char_buffer := none, model_id := none, debug := some true }
        (some "k") =
      HttpResult.err 400 exMsg := by
  constructor
  · exact (c4_amended_error_mapping { allow_empty_examples := false, model_default := "m" }
      (fun _ => (Except.error (PyErr.exc "boom") : Except PyErr String))
      { text_or_documents := Sum.inl "t", prompt_description := "p",
        examples := [{ text := "e", extractions := [] }],
        extraction_passes := none, max_workers := none,
        max_char_buffer := none, model_id := none, debug := some true }
      (some "k") "boom").2.1 rfl rfl
  · exact (c4_amended_error_mapping { allow_empty_examples := false, model_default := "m" }
      (fun _ => (Except.ok "d" : Except PyErr String))
      { text_or_documents := Sum.inl "t", prompt_description := "p",
        examples := [], extraction_passes := none, max_workers := none,
        max_char_buffer := none, model_id := none, debug := some true }
      (some "k") "unused").2.2.2 rfl rfl

/-- C5: empty-examples policy.  With the override disabled, a request with
zero examples makes both `POST /extract` and `POST /visualize` return
HTTP 400 with the fixed message — which mentions examples — regardless of
the extraction capability (so the capability is never invoked, and
`/visualize` leaves the filesystem untouched).  With the override enabled,
`_extract` proceeds straight to the capability call (no 400 solely for
empty examples). -/
theorem c5_empty_examples_policy {α : Type} (env envA : Env)
    (aDir ts runId : String) (saveC : α → String)
    (vis : String → Except PyErr String)
    (req : ExtractRequest) (k : Option String) (fs : FS)
    (hreq : req.examples = [])
    (hdis : env.allow_empty_examples = false)
    (hena : envA.allow_empty_examples = true) :
    (∀ c : ExtractKwargs → Except PyErr α,
      extractEndpoint env c req k = HttpResult.err 400 exMsg) ∧
    mentions exMsg "Examples" = true ∧
    (∀ c : ExtractKwargs → Except PyErr α,
      visualizeEndpoint env aDir c saveC vis ts runId req k fs =
        (fs, HttpResult.err 400 exMsg)) ∧
    (∀ c : ExtractKwargs → Except PyErr α,
      extractCore envA c req k = c (buildKwargs envA req k)) := by
  refine ⟨?_, by decide, ?_, ?_⟩
  · intro c
    simp [extractEndpoint, extractCore, hreq, hdis]
  · intro c
    simp [visualizeEndpoint, extractCore, hreq, hdis]
  · intro c
    simp [extractCore, hreq, hena]

/-- C5 (witness). -/
theorem c5_empty_examples_policy_witness :
    extractEndpoint { allow_empty_examples := false, model_default := "m" }
        (fun _ => (Except.ok "d" : Except PyErr String))
        { text_or_documents := Sum.inl "t", prompt_description := "p",
          examples := [], extraction_passes := none, max_workers := none,
          max_char_buffer := none, model_id := none, debug := some true }
        none =
      HttpResult.err 400 exMsg ∧
    visualizeEndpoint { allow_empty_examples := false, model_default := "m" }
        "/a" (fun _ => (Except.ok "d" : Except PyErr String)) (fun r => r)
        (fun _ => Except.ok "<html></html>") "ts" "id"
        { text_or_documents := Sum.inl "t", prompt_description := "p",
          examples := [], extraction_passes := none, max_workers := none,
          max_char_buffer := none, model_id := none, debug := some true }
        none { dirs := [], files := [] } =
      ({ dirs := [], files := [] }, HttpResult.err 400 exMsg) ∧
    extractCore { allow_empty_examples := true, model_default := "m" }
        (fun _ => (Except.ok "d" : Except PyErr String))
        { text_or_documents := Sum.inl "t", prompt_description := "p",
          examples := [], extraction_passes := none, max_workers := none,
          max_char_buffer := none, model_id := none, debug := some true }
        none =
      (fun _ => (Except.ok "d" : Except PyErr String))
        (buildKwargs { allow_empty_examples := true, model_default := "m" }
          { text_or_documents := Sum.inl "t", prompt_description := "p",
            examples := [], extraction_passes := none, max_workers := none,
            max_char_buffer := none, model_id := none, debug := some true }
          none) := by
  have h := c5_empty_examples_policy (α := String)
    { allow_empty_examples := false, model_default := "m" }
    { allow_empty_examples := true, model_default := "m" }
    "/a" "ts" "id" (fun r => r) (fun _ => Except.ok "<html></html>")
    { text_or_documents := Sum.inl "t", prompt_description := "p",
      examples := [], extraction_passes := none, max_workers := none,
      max_char_buffer := none, model_id := none, debug := some true }
    none { dirs := [], files := [] } rfl rfl rfl
  exact ⟨h.1 _, h.2.2.1 _, h.2.2.2 _⟩

/-- C6: the example translator `_to_examples` maps an absent or empty input
to `None` — which the kwargs dict carries to the capability as
not-specified rather than as an empty list — and maps a non-empty list
one-to-one and order-preservingly (an element-wise `map`), copying
`text` and, for every nested extraction, `extraction_class`,
`extraction_text` and `attributes` verbatim. -/
theorem c6_example_translation (l : List ExampleDataDTO)
    (o : ExampleDataDTO) (e : ExtractionDTO)
    (env : Env) (req : ExtractRequest) (k : Option String)
    (hl : l ≠ []) (hempty : req.examples = []) :
    to_examples none = none ∧
    to_examples (some []) = none ∧
    to_examples (some l) = some (l.map convExampleData) ∧
    (l.map convExampleData).length = l.length ∧
    (convExampleData o).text = o.text ∧
    (convExampleData o).extractions = o.extractions.map convExtraction ∧
    (convExtraction e).extraction_class = e.extraction_class ∧
    (convExtraction e).extraction_text = e.extraction_text ∧
    (convExtraction e).attributes = e.attributes ∧
    (buildKwargs env req k).examples = none := by
  refine ⟨rfl, rfl, ?_, List.length_map l convExampleData, rfl, rfl, rfl, rfl, rfl, ?_⟩
  · simp [to_examples, hl]
  · simp [buildKwargs, to_examples, hempty]

/-- C6 (witness). -/
theorem c6_example_translation_witness :
    to_examples (some [{ text := "Jane works at Globex.",
                         extractions := [{ extraction_class := "person",
                                           extraction_text := "Jane",
                                           attributes := [("role", "employee")] }] }]) =
      some [{ text := "Jane works at Globex.",
              extractions := [{ extraction_class := "person",
                                extraction_text := "Jane",
                                attributes := [("role", "employee")] }] }] ∧
    (buildKwargs { allow_empty_examples := true, model_default := "m" }
        { text_or_documents := Sum.inl "t", prompt_description := "p",
          examples := [], extraction_passes := none, max_workers := none,
          max_char_buffer := none, model_id := none, debug := some true }
        none).examples = none := by
  have h := c6_example_translation
    [{ text := "Jane works at Globex.",
       extractions := [{ extraction_class := "person", extraction_text := "Jane",
                         attributes := [("role", "employee")] }] }]
    { text := "x", extractions := [] }
    { extraction_class := "c", extraction_text := "t", attributes := [] }
    { allow_empty_examples := true, model_default := "m" }
    { text_or_documents := Sum.inl "t", prompt_description := "p",
      examples := [], extraction_passes := none, max_workers := none,
      max_char_buffer := none, model_id := none, debug := some true }
    none (by decide) rfl
  exact ⟨h.2.2.1, h.2.2.2.2.2.2.2.2.2⟩

/-- C7: on a successful `/visualize` call the artifacts live under
`<artifacts_root>/run_<timestamp>_<suffix>/`: the run directory is created
and exactly two files are written in it — `extraction_results.jsonl` and
`report.html` — and the response is a `RunArtifact` holding exactly those
three paths.  Moreover the run directory is a function of the freshly
generated identifier: two calls whose random suffixes differ produce
distinct run directories. -/
theorem c7_run_layout_and_freshness {α : Type} (env : Env)
    (aDir ts runId runId2 : String)
    (cap : ExtractKwargs → Except PyErr α) (saveC : α → String)
    (vis : String → Except PyErr String)
    (req : ExtractRequest) (k : Option String) (fs : FS) (raw : α) (htmlText : String)
    (hex : req.examples.isEmpty = false)
    (hcap : cap (buildKwargs env req k) = Except.ok raw)
    (hvis : vis (runDirPath aDir ts runId ++ "/extraction_results.jsonl") =
      Except.ok htmlText)
    (hid : runId ≠ runId2) :
    visualizeEndpoint env aDir cap saveC vis ts runId req k fs =
      (writeFS
         (writeFS (mkdirFS fs (runDirPath aDir ts runId))
           (runDirPath aDir ts runId ++ "/extraction_results.jsonl") (saveC raw))
         (runDirPath aDir ts runId ++ "/report.html") htmlText,
       HttpResult.ok
         { run_dir := runDirPath aDir ts runId,
           jsonl := runDirPath aDir ts runId ++ "/extraction_results.jsonl",
           html := runDirPath aDir ts runId ++ "/report.html" }) ∧
    runDirPath aDir ts runId ≠ runDirPath aDir ts runId2 := by
  constructor
  · simp [visualizeEndpoint, extractCore, hex, hcap, hvis]
  · intro heq
    simp only [runDirPath] at heq
    exact hid (str_append_left_cancel (aDir ++ "/run_" ++ ts ++ "_") runId runId2 heq)

/-- C7 (witness). -/
theorem c7_run_layout_and_freshness_witness :
    visualizeEndpoint { allow_empty_examples := false, model_default := "m" }
        "/srv/artifacts" (fun _ => (Except.ok "r" : Except PyErr String)) (fun r => r)
        (fun _ => Except.ok "<html></html>") "20260101T000000Z" "abcd1234"
        { text_or_documents := Sum.inl "t", prompt_description := "p",
          examples := [{ text := "e", extractions := [] }],
          extraction_passes := none, max_workers := none,
          max_char_buffer := none, model_id := none, debug := some true }
        none { dirs := [], files := [] } =
      (writeFS
         (writeFS (mkdirFS { dirs := [], files := [] }
             (runDirPath "/srv/artifacts" "20260101T000000Z" "abcd1234"))
           (runDirPath "/srv/artifacts" "20260101T000000Z" "abcd1234" ++
             "/extraction_results.jsonl") "r")
         (runDirPath "/srv/artifacts" "20260101T000000Z" "abcd1234" ++ "/report.html")
         "<html></html>",
       HttpResult.ok
         { run_dir := runDirPath "/srv/artifacts" "20260101T000000Z" "abcd1234",
           jsonl := runDirPath "/srv/artifacts" "20260101T000000Z" "abcd1234" ++
             "/extraction_results.jsonl",
           html := runDirPath "/srv/artifacts" "20260101T000000Z" "abcd1234" ++
             "/report.html" }) ∧
    runDirPath "/srv/artifacts" "20260101T000000Z" "abcd1234" ≠
      runDirPath "/srv/artifacts" "20260101T000000Z" "ef567890" := by
  exact c7_run_layout_and_freshness { allow_empty_examples := false, model_default := "m" }
    "/srv/artifacts" "20260101T000000Z" "abcd1234" "ef567890"
    (fun _ => (Except.ok "r" : Except PyErr String)) (fun r => r)
    (fun _ => Except.ok "<html></html>")
    { text_or_documents := Sum.inl "t", prompt_description := "p",
      examples := [{ text := "e", extractions := [] }],
      extraction_passes := none, max_workers := none,
      max_char_buffer := none, model_id := none, debug := some true }
    none { dirs := [], files := [] } "r" "<html></html>" rfl rfl rfl (by decide)

/-- C8: no rollback of partial artifacts.  When extraction succeeds, the
JSONL file is written, and then the visualization step fails with any
exception, `/visualize` answers with an error status while the run
directory and the JSONL file it already wrote remain present in the final
filesystem state. -/
theorem c8_partial_artifacts_kept {α : Type} (env : Env) (aDir ts runId : String)
    (cap : ExtractKwargs → Except PyErr α) (saveC : α → String)
    (vis : String → Except PyErr String)
    (req : ExtractRequest) (k : Option String) (fs : FS) (raw : α) (e : PyErr)
    (hex : req.examples.isEmpty = false)
    (hcap : cap (buildKwargs env req k) = Except.ok raw)
    (hvis : vis (runDirPath aDir ts runId ++ "/extraction_results.jsonl") =
      Except.error e) :
    runDirPath aDir ts runId ∈ (visualizeEndpoint env aDir cap saveC vis ts runId req k fs).1.dirs ∧
    (runDirPath aDir ts runId ++ "/extraction_results.jsonl", saveC raw) ∈
      (visualizeEndpoint env aDir cap saveC vis ts runId req k fs).1.files ∧
    ∃ st d, (visualizeEndpoint env aDir cap saveC vis ts runId req k fs).2 =
      HttpResult.err st d := by
  cases e with
  | valueError m =>
    refine ⟨?_, ?_, 400, m, ?_⟩ <;>
      simp [visualizeEndpoint, extractCore, hex, hcap, hvis, mkdirFS, writeFS]
  | exc m =>
    refine ⟨?_, ?_, 500, "Visualization failed: " ++ m, ?_⟩ <;>
      simp [visualizeEndpoint, extractCore, hex, hcap, hvis, mkdirFS, writeFS]

/-- C8 (witness). -/
theorem c8_partial_artifacts_kept_witness :
    runDirPath "/a" "ts" "id" ∈
      (visualizeEndpoint { allow_empty_examples := false, model_default := "m" }
        "/a" (fun _ => (Except.ok "r" : Except PyErr String)) (fun r => r)
        (fun _ => Except.error (PyErr.exc "down")) "ts" "id"
        { text_or_documents := Sum.inl "t", prompt_description := "p",
          examples := [{ text := "e", extractions := [] }],
          extraction_passes := none, max_workers := none,
          max_char_buffer := none, model_id := none, debug := some true }
        none { dirs := [], files := [] }).1.dirs ∧
    (runDirPath "/a" "ts" "id" ++ "/extraction_results.jsonl", "r") ∈
      (visualizeEndpoint { allow_empty_examples := false, model_default := "m" }
        "/a" (fun _ => (Except.ok "r" : Except PyErr String)) (fun r => r)
        (fun _ => Except.error (PyErr.exc "down")) "ts" "id"
        { text_or_documents := Sum.inl "t", prompt_description := "p",
          examples := [{ text := "e", extractions := [] }],
          extraction_passes := none, max_workers := none,
          max_char_buffer := none, model_id := none, debug := some true }
        none { dirs := [], files := [] }).1.files ∧
    ∃ st d,
      (visualizeEndpoint { allow_empty_examples := false, model_default := "m" }
        "/a" (fun _ => (Except.ok "r" : Except PyErr String)) (fun r => r)
        (fun _ => Except.error (PyErr.exc "down")) "ts" "id"
        { text_or_documents := Sum.inl "t", prompt_description := "p",
          examples := [{ text := "e", extractions := [] }],
          extraction_passes := none, max_workers := none,
          max_char_buffer := none, model_id := none, debug := some true }
        none { dirs := [], files := [] }).2 = HttpResult.err st d := by
  exact c8_partial_artifacts_kept { allow_empty_examples := false, model_default := "m" }
    "/a" "ts" "id" (fun _ => (Except.ok "r" : Except PyErr String)) (fun r => r)
    (fun _ => Except.error (PyErr.exc "down"))
    { text_or_documents := Sum.inl "t", prompt_description := "p",
      examples := [{ text := "e", extractions := [] }],
      extraction_passes := none, max_workers := none,
      max_char_buffer := none, model_id := none, debug := some true }
    none { dirs := [], files := [] } "r" (PyErr.exc "down") rfl rfl rfl

/-- C9: for a query path accepted by the containment check of
`GET /artifacts/html`, the endpoint returns 404 "Not found" whenever the
path does not exist on disk or its (lower-cased) extension is not `.html`,
and returns the file with media type `text/html` whenever the path names an
existing file with the `.html` extension. -/
theorem c9_inside_root_serving (root : String) (fs : FS) (p : String)
    (hin : pyStartsWith p root = true) :
    ((fileExists fs p = false ∨ strToLower (pySuffix p) ≠ ".html") →
      get_html root fs p = FileResult.err 404 "Not found") ∧
    (fileExists fs p = true → strToLower (pySuffix p) = ".html" →
      get_html root fs p = FileResult.file p "text/html") := by
  constructor
  · intro h
    simp [get_html, hin, h]
  · intro hx hs
    simp [get_html, hin, hx, hs]

/-- C9 (witness). -/
theorem c9_inside_root_serving_witness :
    get_html "/srv/artifacts"
        { dirs := ["/srv/artifacts/run_x"],
          files := [("/srv/artifacts/run_x/report.html", "<html></html>")] }
        "/srv/artifacts/run_x/missing.html" = FileResult.err 404 "Not found" ∧
    get_html "/srv/artifacts"
        { dirs := ["/srv/artifacts/run_x"],
          files := [("/srv/artifacts/run_x/report.html", "<html></html>")] }
        "/srv/artifacts/run_x/report.html" =
      FileResult.file "/srv/artifacts/run_x/report.html" "text/html" := by
  constructor
  · exact (c9_inside_root_serving "/srv/artifacts"
      { dirs := ["/srv/artifacts/run_x"],
        files := [("/srv/artifacts/run_x/report.html", "<html></html>")] }
      "/srv/artifacts/run_x/missing.html" (by decide)).1 (Or.inl (by decide))
  · exact (c9_inside_root_serving "/srv/artifacts"
      { dirs := ["/srv/artifacts/run_x"],
        files := [("/srv/artifacts/run_x/report.html", "<html></html>")] }
      "/srv/artifacts/run_x/report.html" (by decide)).2 (by decide) (by decide)

/-- C10: `model_id` is defaulted with Python truthiness
(`req.model_id or MODEL_DEFAULT`), so a request carrying the empty string
as `model_id` forwards the process-wide default model identifier, exactly
as a request with `model_id` unset does. -/
theorem c10_empty_model_id_defaults (env : Env) (req reqU : ExtractRequest)
    (k : Option String)
    (he : req.model_id = some "") (hu : reqU.model_id = none) :
    (buildKwargs env req k).model_id = env.model_default ∧
    (buildKwargs env reqU k).model_id = env.model_default := by
  constructor
  · simp [buildKwargs, pyStrOr, he]
  · simp [buildKwargs, pyStrOr, hu]

/-- C10 (witness). -/
theorem c10_empty_model_id_defaults_witness :
    (buildKwargs { allow_empty_examples := false, model_default := "gemini-2.5-flash" }
        { text_or_documents := Sum.inl "t", prompt_description := "p",
          examples := [], extraction_passes := none, max_workers := none,
          max_char_buffer := none, model_id := some "", debug := some true }
        none).model_id = "gemini-2.5-flash" := by
  exact (c10_empty_model_id_defaults
    { allow_empty_examples := false, model_default := "gemini-2.5-flash" }
    { text_or_documents := Sum.inl "t", prompt_description := "p",
      examples := [], extraction_passes := none, max_workers := none,
      max_char_buffer := none, model_id := some "", debug := some true }
    { text_or_documents := Sum.inl "t", prompt_description := "p",
      examples := [], extraction_passes := none, max_workers := none,
      max_char_buffer := none, model_id := none, debug := some true }
    none rfl rfl).1
